import Mathlib

/-!
Verification development for the bfta static-site toolchain.

Shallow embedding of the two identifier/URL implementations
(`generate-vdp-pages.ps1` and `inventory-loader.js`), the sitemap
rewriter, the page-document field formatting, and the client inventory
renderer, together with theorems settling the spec claims.
-/

set_option maxRecDepth 4000

/-- A JSON scalar as both runtimes see it: a number or a string.
Vehicle fields are `Option JSPrim`, `none` meaning the field is absent
(`$null` in PowerShell, `undefined` in JavaScript). -/
inductive JSPrim where
  | num : Int → JSPrim
  | str : String → JSPrim
deriving DecidableEq, Repr

/-- String rendering of a scalar (`.ToString()` in PowerShell,
`String(x)` / template interpolation in JavaScript; both print integers
in decimal). -/
def JSPrim.render : JSPrim → String
  | .num n => toString n
  | .str s => s

/-- Truthiness of a possibly-absent scalar.  PowerShell (`if ($x)`) and
JavaScript (`if (x)`, `x || y`, `.filter(Boolean)`) agree on these
values: absent, `0` and `""` are falsy, everything else is truthy. -/
def truthy : Option JSPrim → Bool
  | none => false
  | some (.num n) => n != 0
  | some (.str s) => s != ""

/-- A Vehicle record, restricted to the fields the verified code paths
read.  All fields default to absent. -/
structure Vehicle where
  vehicleId : Option JSPrim := none
  stockNumber : Option JSPrim := none
  id : Option JSPrim := none
  vin : Option JSPrim := none
  year : Option JSPrim := none
  make : Option JSPrim := none
  model : Option JSPrim := none
  trim : Option JSPrim := none
  price : Option JSPrim := none
  mileage : Option JSPrim := none
  dateAdded : Option JSPrim := none
  status : Option JSPrim := none
  vtype : Option JSPrim := none
  description : Option JSPrim := none
deriving DecidableEq, Repr

/-- Generator configuration (`Param` block of generate-vdp-pages.ps1),
with the script's default values. -/
structure SiteConfig where
  siteUrl : String := "https://bellsforkautoandtruck.com"
  city : String := "Greenville"
  state : String := "NC"
  zip : String := "27858"
deriving DecidableEq, Repr

/-- The identity-field selection shared by both implementations:
`$raw = $v.vehicleId; if (-not $raw) { $raw = $v.stockNumber } ...` in
PowerShell, `v.vehicleId || v.stockNumber || v.id` (guarded by
`if (raw)`) in JavaScript.  Yields the first truthy field, `none` when
all three are falsy. -/
def identityRaw (v : Vehicle) : Option JSPrim :=
  if truthy v.vehicleId then v.vehicleId
  else if truthy v.stockNumber then v.stockNumber
  else if truthy v.id then v.id
  else none

/-- Final identifier sanitization: `-replace '[^a-zA-Z0-9]',''` (PS) /
`.replace(/[^a-z0-9]/gi, '')` (JS) — drop every character that is not
an ASCII letter or digit. -/
def sanitizeId (s : String) : String :=
  String.mk (s.data.filter Char.isAlphanum)

/-- UTF-8 encoding of one character (both runtimes hash the UTF-8 bytes
of the seed: `[System.Text.Encoding]::UTF8.GetBytes` in PS,
`unescape(encodeURIComponent(msg))` in utils.js). -/
def utf8Char (c : Char) : List Nat :=
  let n := c.toNat
  if n < 128 then [n]
  else if n < 2048 then [192 + n / 64, 128 + n % 64]
  else if n < 65536 then [224 + n / 4096, 128 + (n / 64) % 64, 128 + n % 64]
  else [240 + n / 262144, 128 + (n / 4096) % 64, 128 + (n / 64) % 64, 128 + n % 64]

/-- UTF-8 byte sequence of a string. -/
def utf8Bytes (s : String) : List Nat :=
  (s.data.map utf8Char).flatten

/-- `2^32`, the modulus of all 32-bit arithmetic in the SHA-1 core. -/
def pow32 : Nat := 4294967296

/-- 32-bit left rotation (`rotl` in utils.js: `(n << s) | (n >>> (32 - s))`),
on naturals below `2^32`. -/
def rotl32 (n s : Nat) : Nat :=
  ((n <<< s) % pow32) ||| (n >>> (32 - s))

/-- 32-bit bitwise complement (`~b` on an int32, viewed unsigned). -/
def not32 (n : Nat) : Nat := 4294967295 - n

/-- Lower-case hexadecimal digit (utils.js renders with `toString(16)`). -/
def hexDigit (k : Nat) : Char :=
  "0123456789abcdef".data.getD (k % 16) '0'

/-- Eight-hex-digit big-endian rendering of a 32-bit word
(`toHex` in utils.js: `(i >>> 0).toString(16).padStart(8, '0')`). -/
def toHex8 (n : Nat) : List Char :=
  [hexDigit (n / 268435456), hexDigit (n / 16777216), hexDigit (n / 1048576),
   hexDigit (n / 65536), hexDigit (n / 4096), hexDigit (n / 256),
   hexDigit (n / 16), hexDigit n]

/-- SHA-1 padding: append `0x80`, zero fill, and the bit length in the
final 32-bit word of the last 512-bit block — exactly the word layout
utils.js builds (`words[ml >> 5] |= 0x80 << (24 - ml % 32)`;
`words[(((ml + 64) >> 9) << 4) + 15] = ml`). -/
def sha1Pad (msg : List Nat) : List Nat :=
  let n := msg.length
  let total := 64 * ((n + 8) / 64 + 1)
  msg ++ [128] ++ List.replicate (total - n - 5) 0 ++
    [(8 * n / 16777216) % 256, (8 * n / 65536) % 256, (8 * n / 256) % 256, (8 * n) % 256]

/-- Big-endian 32-bit word `i` of a padded byte sequence
(`words[i >> 2] |= msg.charCodeAt(i) << (24 - (i % 4) * 8)`). -/
def word32At (bs : List Nat) (i : Nat) : Nat :=
  bs.getD (4 * i) 0 * 16777216 + bs.getD (4 * i + 1) 0 * 65536 +
    bs.getD (4 * i + 2) 0 * 256 + bs.getD (4 * i + 3) 0

/-- Message-schedule expansion, fueled (each step appends
`rotl(w[t-3] ^ w[t-8] ^ w[t-14] ^ w[t-16], 1)`); called with fuel 64 to
grow a 16-word block to 80 words. -/
def sha1Extend : Nat → List Nat → List Nat
  | 0, w => w
  | f + 1, w =>
      let x := rotl32 ((w.getD (w.length - 3) 0) ^^^ (w.getD (w.length - 8) 0) ^^^
        (w.getD (w.length - 14) 0) ^^^ (w.getD (w.length - 16) 0)) 1
      sha1Extend f (w ++ [x])

/-- Round function `f` of SHA-1 (the four 20-round phases of utils.js). -/
def sha1F (t b c d : Nat) : Nat :=
  if t < 20 then (b &&& c) ||| (not32 b &&& d)
  else if t < 40 then b ^^^ c ^^^ d
  else if t < 60 then (b &&& c) ||| (b &&& d) ||| (c &&& d)
  else b ^^^ c ^^^ d

/-- Round constant `k` of SHA-1. -/
def sha1K (t : Nat) : Nat :=
  if t < 20 then 1518500249
  else if t < 40 then 1859775393
  else if t < 60 then 2400959708
  else 3395469782

/-- One SHA-1 round: `temp = (rotl(a,5) + f + e + k + w[t]) | 0;
e = d; d = c; c = rotl(b,30); b = a; a = temp`. -/
def sha1Round (w : List Nat) (st : Nat × Nat × Nat × Nat × Nat) (t : Nat) :
    Nat × Nat × Nat × Nat × Nat :=
  match st with
  | (a, b, c, d, e) =>
    ((rotl32 a 5 + sha1F t b c d + e + sha1K t + w.getD t 0) % pow32,
      a, rotl32 b 30, c, d)

/-- Process one 16-word block and add the result into the running hash
state (mod `2^32`, matching the `| 0` coercions). -/
def sha1Block (h : Nat × Nat × Nat × Nat × Nat) (blk : List Nat) :
    Nat × Nat × Nat × Nat × Nat :=
  let w := sha1Extend 64 blk
  match h, (List.range 80).foldl (sha1Round w) h with
  | (h0, h1, h2, h3, h4), (a, b, c, d, e) =>
    ((h0 + a) % pow32, (h1 + b) % pow32, (h2 + c) % pow32,
      (h3 + d) % pow32, (h4 + e) % pow32)

/-- The 16-word blocks of a padded byte sequence. -/
def sha1Blocks (padded : List Nat) : List (List Nat) :=
  (List.range (padded.length / 64)).map
    (fun b => (List.range 16).map (fun t => word32At padded (16 * b + t)))

/-- Hex rendering of the final hash state
(`toHex(h0) + toHex(h1) + toHex(h2) + toHex(h3) + toHex(h4)`). -/
def sha1Render : Nat × Nat × Nat × Nat × Nat → String
  | (h0, h1, h2, h3, h4) =>
    String.mk (toHex8 h0 ++ toHex8 h1 ++ toHex8 h2 ++ toHex8 h3 ++ toHex8 h4)

/-- SHA-1 of a byte sequence as a 40-character lower-case hex string —
the `sha1Hex` of assets/js/utils.js; the generator's
`[System.Security.Cryptography.SHA1]` computes the same FIPS-180 SHA-1,
so this one definition embeds both runtimes' digest. -/
def sha1Hex (msg : List Nat) : String :=
  sha1Render ((sha1Blocks (sha1Pad msg)).foldl sha1Block
    (1732584193, 4023233417, 2562383102, 271733878, 3285377520))

/-- The seven descriptive fields of the fallback seed, in source order. -/
def seedFields (v : Vehicle) : List (Option JSPrim) :=
  [v.year, v.make, v.model, v.trim, v.price, v.mileage, v.dateAdded]

/-- Stringification of one element inside a join: `$null` renders as the
empty string in a PowerShell `-join`. -/
def joinElem : Option JSPrim → String
  | none => ""
  | some p => p.render

/-- Fallback seed of the PowerShell generator (Slug-Id): prefer a truthy
`vin`; otherwise `@(year,...,dateAdded) -join '|'`, which keeps empty
slots — an all-absent record joins to `"||||||"`, so the subsequent
`if (-not $seed) { $seed = "NA" }` can never fire. -/
def psSeed (v : Vehicle) : String :=
  if truthy v.vin then joinElem v.vin
  else
    let s := String.intercalate "|" ((seedFields v).map joinElem)
    if s = "" then "NA" else s

/-- Fallback seed of the client loader (vehicleId):
`v.vin || [ ... ].filter(Boolean).join('|') || 'NA'` — empties are
filtered out before the join, and an empty join falls back to `"NA"`. -/
def jsSeed (v : Vehicle) : String :=
  if truthy v.vin then joinElem v.vin
  else
    let s := String.intercalate "|" ((((seedFields v).filter truthy)).map joinElem)
    if s = "" then "NA" else s

/-- The client loader's identifier (`InventoryLoader.vehicleId`): first
truthy identity field, sanitized; else `"v"` + first 10 hex chars of
SHA-1 of the seed (`slice(0, 10)`), returned without sanitization. -/
def jsVehicleId (v : Vehicle) : String :=
  match identityRaw v with
  | some p => sanitizeId p.render
  | none => "v" ++ String.mk ((sha1Hex (utf8Bytes (jsSeed v))).data.take 10)

/-- The generator's identifier (`Slug-Id` in generate-vdp-pages.ps1):
same selection, but the `"v" + $hash.Substring(0, 10)` fallback also
passes through the final `-replace '[^a-zA-Z0-9]',''`. -/
def psSlugId (v : Vehicle) : String :=
  let raw : String :=
    match identityRaw v with
    | some p => p.render
    | none => "v" ++ String.mk ((sha1Hex (utf8Bytes (psSeed v))).data.take 10)
  sanitizeId raw

/-- Replace a character by itself if ASCII-alphanumeric, else by `-`
(pointwise step of `-replace '[^a-zA-Z0-9]+','-'` /
`.replace(/[^a-z0-9]+/gi, '-')`). -/
def dashify (c : Char) : Char :=
  if c.isAlphanum then c else '-'

/-- Collapse consecutive dashes to a single dash; composed with
`dashify` this realizes replacing each run of non-alphanumerics by one
hyphen. -/
def collapseDashes : List Char → List Char
  | [] => []
  | [c] => [c]
  | a :: b :: t =>
      if a = '-' && b = '-' then collapseDashes (b :: t)
      else a :: collapseDashes (b :: t)

/-- Trim characters satisfying `p` from both ends of a list. -/
def trimChars (p : Char → Bool) (cs : List Char) : List Char :=
  ((cs.dropWhile p).reverse.dropWhile p).reverse

/-- One slug part, PowerShell `Slug-Part`: `$null` yields `$null`;
otherwise stringify, `.Trim()`, replace non-alphanumeric runs with `-`,
`.Trim('-')`, and yield `$null` if the result is empty. -/
def psSlugPart : Option JSPrim → Option String
  | none => none
  | some p =>
      let s := String.mk (trimChars Char.isWhitespace p.render.data)
      if s = "" then none
      else
        let r := String.mk (trimChars (fun c => c = '-') (collapseDashes (s.data.map dashify)))
        if r = "" then none else some r

/-- Locality tail literal `"for-sale-in-$City-$State-$Zip"`. -/
def localityPart (cfg : SiteConfig) : String :=
  "for-sale-in-" ++ cfg.city ++ "-" ++ cfg.state ++ "-" ++ cfg.zip

/-- PowerShell `Slug-Tail`: the cleaned parts of
`@("Used", year, make, model, trim, locality)` joined with `-`. -/
def psSlugTail (v : Vehicle) (cfg : SiteConfig) : String :=
  String.intercalate "-"
    ([some (JSPrim.str "Used"), v.year, v.make, v.model, v.trim,
      some (JSPrim.str (localityPart cfg))].filterMap psSlugPart)

/-- The slug-part transform of the client loader:
`String(p).trim().replace(/[^a-z0-9]+/gi, '-').replace(/^-+|-+$/g, '')`. -/
def jsSlugTransform (p : JSPrim) : String :=
  String.mk (trimChars (fun c => c = '-')
    (collapseDashes ((trimChars Char.isWhitespace p.render.data).map dashify)))

/-- The client loader's slug (`buildVDPUrl` body): parts filtered by
truthiness, transformed, re-filtered for emptiness, joined with `-`;
the locality is hardcoded. -/
def jsSlug (v : Vehicle) : String :=
  String.intercalate "-"
    (((([some (JSPrim.str "Used"), v.year, v.make, v.model, v.trim,
      some (JSPrim.str "for-sale-in-Greenville-NC-27858")].filter truthy).filterMap id).map
        jsSlugTransform).filter (fun s => s ≠ ""))

/-- The client loader's full VDP link: `/vdp/${id}/${slug}/`. -/
def jsBuildVDPUrl (v : Vehicle) : String :=
  "/vdp/" ++ jsVehicleId v ++ "/" ++ jsSlug v ++ "/"

/-- The generator's relative page directory: `"vdp/$id/$tail"`. -/
def relDir (v : Vehicle) (cfg : SiteConfig) : String :=
  "vdp/" ++ psSlugId v ++ "/" ++ psSlugTail v cfg

/-- `$SiteUrl.TrimEnd('/')`. -/
def trimEndSlashes (s : String) : String :=
  String.mk ((s.data.reverse.dropWhile (fun c => c = '/')).reverse)

/-- The generator's absolute page URL (also the sitemap `loc`):
`$SiteUrl.TrimEnd('/') + "/" + $relDir + "/"`. -/
def pageUrl (v : Vehicle) (cfg : SiteConfig) : String :=
  trimEndSlashes cfg.siteUrl ++ "/" ++ relDir v cfg ++ "/"

/-- One `<url>` element of the sitemap document. -/
structure SitemapUrl where
  loc : String
  lastmod : String
  changefreq : String
  priority : String
deriving DecidableEq, Repr

/-- Fueled PowerShell wildcard matcher (`-like`): `*` matches any run,
`?` one character, every other character — including backslash, which
is NOT an escape in PowerShell wildcards — matches itself literally. -/
def wcMatchF : Nat → List Char → List Char → Bool
  | 0, _, _ => false
  | _ + 1, [], s => s.isEmpty
  | f + 1, '*' :: ps, s =>
      wcMatchF f ps s ||
        (match s with
         | [] => false
         | _ :: t => wcMatchF f ('*' :: ps) t)
  | f + 1, '?' :: ps, s =>
      (match s with
       | [] => false
       | _ :: t => wcMatchF f ps t)
  | f + 1, p :: ps, s =>
      (match s with
       | [] => false
       | c :: t => p = c && wcMatchF f ps t)

/-- PowerShell `-like`.  The fuel `|pat| + |s| + 1` dominates the
recursion depth (every step shrinks the pattern or the subject). -/
def wcMatch (pat s : String) : Bool :=
  wcMatchF (pat.length + s.length + 1) pat.data s.data

/-- The removal pattern of Update-Sitemap, verbatim from the source:
`$loc.InnerText -like "*\/vdp\/*"`.  As a wildcard pattern this
requires the literal seven characters `\/vdp\/`. -/
def oldVdpPattern : String := "*\\/vdp\\/*"

/-- The removal pass of `Update-Sitemap`: keep every `<url>` whose
`<loc>` does not match the pattern. -/
def removeOldVdp (urls : List SitemapUrl) : List SitemapUrl :=
  urls.filter (fun u => !(wcMatch oldVdpPattern u.loc))

/-- `Update-Sitemap` on an existing sitemap: run the removal pass, then
append one fresh entry per generated URL with today's date, weekly
change frequency and priority 0.6. -/
def updateSitemap (urls : List SitemapUrl) (vdpUrls : List String) (today : String) :
    List SitemapUrl :=
  removeOldVdp urls ++
    vdpUrls.map (fun u => { loc := u, lastmod := today, changefreq := "weekly", priority := "0.6" })


/-- Decimal digit character. -/
def digitChar (d : Nat) : Char := Char.ofNat (48 + d % 10)

/-- Decimal digits of `n`, least significant first, fueled by `n`
itself (a number has at most `n` digits). -/
def natDigitsRev : Nat → Nat → List Char
  | 0, _ => []
  | _ + 1, 0 => []
  | f + 1, n => digitChar (n % 10) :: natDigitsRev f (n / 10)

/-- Insert a comma after every three digits of a reversed digit list. -/
def group3Rev : List Char → List Char
  | a :: b :: c :: d :: t => a :: b :: c :: ',' :: group3Rev (d :: t)
  | l => l

/-- .NET `"N0"` number formatting for a natural: decimal digits with
comma thousands separators. -/
def formatN0Nat (n : Nat) : String :=
  if n = 0 then "0" else String.mk ((group3Rev (natDigitsRev n n)).reverse)

/-- `"N0"` formatting for an integer. -/
def formatN0 (n : Int) : String :=
  if n < 0 then "-" ++ formatN0Nat n.natAbs else formatN0Nat n.natAbs

/-- Digits-only parse of a character list (`none` when empty or when a
non-digit occurs). -/
def parseNatDigits (cs : List Char) : Option Nat :=
  if !cs.isEmpty && cs.all Char.isDigit then
    some (cs.foldl (fun acc c => acc * 10 + (c.toNat - 48)) 0)
  else none

/-- Signed decimal parse of a string after whitespace trimming. -/
def parseIntStr (s : String) : Option Int :=
  match trimChars Char.isWhitespace s.data with
  | '-' :: t => (parseNatDigits t).map (fun n => -(n : Int))
  | '+' :: t => (parseNatDigits t).map (fun n => (n : Int))
  | cs => (parseNatDigits cs).map (fun n => (n : Int))

/-- PowerShell `[int]$x` on an inventory scalar: numbers pass through,
decimal strings parse, anything else throws — modelled as `none`
(the generator catches the throw and keeps the fallback text). -/
def psToInt : Option JSPrim → Option Int
  | none => none
  | some (.num n) => some n
  | some (.str s) => parseIntStr s

/-- The generator's price text: preset to `"Call for Price"`, replaced
by `"$" + ([int]$v.price).ToString("N0")` only when the field is truthy
and the cast succeeds (`try { ... } catch {}`). -/
def psPriceStr (price : Option JSPrim) : String :=
  if truthy price then
    match psToInt price with
    | some n => "$" ++ formatN0 n
    | none => "Call for Price"
  else "Call for Price"

/-- The generator's mileage text: preset to `"Mileage N/A"`, replaced by
`([int]$v.mileage).ToString("N0") + " miles"` under the same guard. -/
def psMilesStr (mileage : Option JSPrim) : String :=
  if truthy mileage then
    match psToInt mileage with
    | some n => formatN0 n ++ " miles"
    | none => "Mileage N/A"
  else "Mileage N/A"

/-- JavaScript `ToNumber` on an inventory scalar, with `none` for NaN:
`undefined` is NaN, a number is itself, a string is trimmed and parsed
(empty string is 0, non-numeric text is NaN). -/
def jsToNumber : Option JSPrim → Option Int
  | none => none
  | some (.num n) => some n
  | some (.str s) =>
      match trimChars Char.isWhitespace s.data with
      | [] => some 0
      | '-' :: t => (parseNatDigits t).map (fun n => -(n : Int))
      | cs => (parseNatDigits cs).map (fun n => (n : Int))

/-- JavaScript `x < m` for a possibly-absent scalar against a number
literal: every comparison against NaN is false. -/
def jsLtNum (p : Option JSPrim) (m : Int) : Bool :=
  match jsToNumber p with
  | some n => n < m
  | none => false

/-- `InventoryLoader.getPriceRange`: the four-bucket price
classification by cascaded `<` comparisons. -/
def getPriceRange (price : Option JSPrim) : String :=
  if jsLtNum price 10000 then "under10"
  else if jsLtNum price 20000 then "10to20"
  else if jsLtNum price 30000 then "20to30"
  else "over30"

/-- The availability test used by both client views:
`v.status === 'available' || !v.status`. -/
def statusVisible (v : Vehicle) : Bool :=
  v.status == some (JSPrim.str "available") || !truthy v.status

/-- Order-faithful model of `new Date(x)` as a sort key: a falsy field
is the epoch (0); an ISO `yyyy-mm-dd` string maps to a value ordered
exactly as its timestamp; an all-digit value is taken as an epoch
count; anything else is modelled as 0. -/
def dateVal (o : Option JSPrim) : Int :=
  if truthy o then
    match o with
    | some (.num n) => n
    | some (.str s) =>
        (match s.data with
         | [y1, y2, y3, y4, '-', m1, m2, '-', d1, d2] =>
             if [y1, y2, y3, y4, m1, m2, d1, d2].all Char.isDigit then
               (((y1.toNat - 48) * 1000 + (y2.toNat - 48) * 100 + (y3.toNat - 48) * 10 +
                   (y4.toNat - 48)) * 10000 +
                 ((m1.toNat - 48) * 10 + (m2.toNat - 48)) * 100 +
                 ((d1.toNat - 48) * 10 + (d2.toNat - 48)) : Nat)
             else 0
         | cs => ((parseNatDigits cs).getD 0 : Nat))
    | none => 0
  else 0

/-- Stable descending insertion by `dateAdded`: the element goes after
every earlier element with an equal-or-later date, matching the stable
`sort((a, b) => dateB - dateA)`. -/
def insertByDate (v : Vehicle) : List Vehicle → List Vehicle
  | [] => [v]
  | w :: t =>
      if dateVal w.dateAdded < dateVal v.dateAdded then v :: w :: t
      else w :: insertByDate v t

/-- The sort of `getMostRecent`: stable, by `dateAdded` descending. -/
def sortByDateDesc (l : List Vehicle) : List Vehicle :=
  l.foldl (fun acc v => insertByDate v acc) []

/-- `InventoryLoader.getMostRecent`: availability filter, date sort,
optional truncation (`none` models the NaN limit of a grid with no
`data-limit` attribute). -/
def getMostRecent (limit : Option Nat) (vehicles : List Vehicle) : List Vehicle :=
  let sorted := sortByDateDesc (vehicles.filter statusVisible)
  match limit with
  | none => sorted
  | some n => sorted.take n

/-- Template interpolation `${x}`: an absent field prints "undefined". -/
def jsTemplate : Option JSPrim → String
  | none => "undefined"
  | some p => p.render

/-- Template interpolation of `x || ''`. -/
def jsOrEmpty (o : Option JSPrim) : String :=
  if truthy o then jsTemplate o else ""

/-- The searchable text of a vehicle:
`${v.year} ${v.make} ${v.model} ${v.trim || ''} ${v.description || ''}`. -/
def searchText (v : Vehicle) : String :=
  jsTemplate v.year ++ " " ++ jsTemplate v.make ++ " " ++ jsTemplate v.model ++ " " ++
    jsOrEmpty v.trim ++ " " ++ jsOrEmpty v.description

/-- Contiguous-substring test on character lists. -/
def listHasInfix (pat : List Char) : List Char → Bool
  | [] => pat.isEmpty
  | c :: t => pat.isPrefixOf (c :: t) || listHasInfix pat t

/-- JavaScript `s.includes(pat)`. -/
def strIncludes (s pat : String) : Bool :=
  listHasInfix pat.data s.data

/-- `searchMatch`: empty query passes, otherwise case-insensitive
substring search of the query in the vehicle text. -/
def searchMatch (q : String) (v : Vehicle) : Bool :=
  q == "" || strIncludes (searchText v).toLower q.toLower

/-- `typeMatch`: `type === 'all' || v.type === type`. -/
def typeMatch (t : String) (v : Vehicle) : Bool :=
  t == "all" || v.vtype == some (JSPrim.str t)

/-- `priceMatch`: `priceRange === 'all' || getPriceRange(v.price) === priceRange`. -/
def priceMatch (p : String) (v : Vehicle) : Bool :=
  p == "all" || getPriceRange v.price == p

/-- `InventoryLoader.filterVehicles`: conjunction of the four matchers
over the full vehicle list. -/
def filterVehicles (vehicles : List Vehicle) (q t p : String) : List Vehicle :=
  vehicles.filter (fun v => searchMatch q v && typeMatch t v && priceMatch p v && statusVisible v)

/-- Defaulting an absent `status` to `"available"`, the hypothetical
substitution claim C8 compares the views against. -/
def dfltStatus (v : Vehicle) : Vehicle :=
  if v.status = none then { v with status := some (JSPrim.str "available") } else v

/-- Whether the selected identity value contains at least one ASCII
alphanumeric character (vacuously true on the fallback path). -/
def idHasAlnum (v : Vehicle) : Bool :=
  match identityRaw v with
  | some p => p.render.data.any Char.isAlphanum
  | none => true

/-- The all-absent Vehicle record: no identity fields, no vin, no
descriptive fields. -/
def emptyVehicle : Vehicle := {}

/-- A demo vehicle for evaluating the sitemap pipeline. -/
def demoVehicle : Vehicle :=
  { stockNumber := some (JSPrim.str "A1234"), year := some (JSPrim.num 2020),
    make := some (JSPrim.str "Ford"), model := some (JSPrim.str "F-150") }

/-- A sitemap holding one pre-existing non-vdp entry. -/
def initialSitemap : List SitemapUrl :=
  [{ loc := "https://bellsforkautoandtruck.com/", lastmod := "2025-01-01",
     changefreq := "weekly", priority := "0.8" }]

/-- A vehicle whose `vehicleId` is whitespace-only but whose
`stockNumber` is a normal stock id. -/
def wsVehicle : Vehicle :=
  { vehicleId := some (JSPrim.str " "), stockNumber := some (JSPrim.str "A1234") }

/-- A vehicle whose `vehicleId` is punctuation-only. -/
def punctVehicle : Vehicle := { vehicleId := some (JSPrim.str "---") }

/-- A nonempty sanitization survivor: if the string has an ASCII
alphanumeric character, `sanitizeId` does not collapse it to `""`. -/
theorem sanitizeId_ne_empty {s : String} (h : s.data.any Char.isAlphanum = true) :
    sanitizeId s ≠ "" := by
  intro he
  rw [sanitizeId] at he
  have hl : s.data.filter Char.isAlphanum = [] := by
    have hd := congrArg String.data he
    simpa using hd
  rcases List.any_eq_true.mp h with ⟨c, hc, hca⟩
  exact (List.filter_eq_nil_iff.mp hl) c hc hca

/-- C1: the two identifier implementations diverge on the fallback path.
The generator's seed join `@(...) -join '|'` keeps empty slots while the
client filters them out, so the all-absent vehicle is hashed from
`"||||||"` by the generator but from `"NA"` by the client, and the two
SHA-1-derived identifiers differ. -/
theorem C1_fallback_seed_divergence :
    psSeed emptyVehicle = "||||||" ∧ jsSeed emptyVehicle = "NA" ∧
      psSlugId emptyVehicle = "v34bd729596" ∧ jsVehicleId emptyVehicle = "v3feda0153e" ∧
      psSlugId emptyVehicle ≠ jsVehicleId emptyVehicle := by decide

/-- C4: on the all-absent vehicle the client does return
`"v"` + the first 10 hex characters of SHA-1("NA") — an 11-character
value — but the generator does not return that value, because its seed
is `"||||||"`, not `"NA"`. -/
theorem C4_empty_fallback_divergence :
    jsVehicleId emptyVehicle = "v" ++ String.mk ((sha1Hex (utf8Bytes "NA")).data.take 10) ∧
      (jsVehicleId emptyVehicle).length = 11 ∧
      psSlugId emptyVehicle ≠ "v" ++ String.mk ((sha1Hex (utf8Bytes "NA")).data.take 10) := by
  decide

/-- C2: the sitemap rewrite does not replace prior vdp entries.  The
wildcard `-like "*\/vdp\/*"` treats each backslash as a literal, so a
real page URL never matches the removal pattern; running the update a
second time on identical input appends a duplicate entry and grows the
sitemap by one instead of keeping the count. -/
theorem C2_sitemap_accumulates :
    wcMatch oldVdpPattern (pageUrl demoVehicle {}) = false ∧
      (updateSitemap initialSitemap [pageUrl demoVehicle {}] "2025-02-01").length = 2 ∧
      (updateSitemap (updateSitemap initialSitemap [pageUrl demoVehicle {}] "2025-02-01")
          [pageUrl demoVehicle {}] "2025-02-02").length = 3 := by decide

/-- C5 counterexample: a whitespace-only `vehicleId` is truthy in both
runtimes, so it is selected instead of `stockNumber` and sanitizes to
the empty identifier — not to an identifier derived from `"A1234"`. -/
theorem C5_counterexample :
    jsVehicleId wsVehicle = "" ∧ psSlugId wsVehicle = "" ∧
      jsVehicleId wsVehicle ≠ sanitizeId "A1234" := by decide

/-- C5 (amended): identity selection takes the first *truthy* field —
non-empty, with no whitespace stripping — so any non-empty `vehicleId`,
even whitespace-only, wins and the identifier is its sanitization in
both implementations. -/
theorem C5_first_truthy_selection (v : Vehicle) (s : String)
    (hv : v.vehicleId = some (JSPrim.str s)) (hs : s ≠ "") :
    jsVehicleId v = sanitizeId s ∧ psSlugId v = sanitizeId s := by
  have ht : truthy v.vehicleId = true := by rw [hv]; simp [truthy, hs]
  have hr : identityRaw v = some (JSPrim.str s) := by
    rw [identityRaw, ht]; simp [hv]
  exact ⟨by simp [jsVehicleId, hr, JSPrim.render], by simp [psSlugId, hr, JSPrim.render]⟩

/-- C5 witness: the whitespace-only `vehicleId` is indeed the selected
source, yielding the sanitization of `" "` (which is empty). -/
theorem C5_witness :
    jsVehicleId wsVehicle = sanitizeId " " ∧ psSlugId wsVehicle = sanitizeId " " :=
  C5_first_truthy_selection wsVehicle " " rfl (by decide)

/-- C6 counterexample: a punctuation-only `vehicleId` is truthy, gets
selected, and sanitizes to the empty identifier in both runtimes. -/
theorem C6_counterexample :
    jsVehicleId punctVehicle = "" ∧ psSlugId punctVehicle = "" := by decide

/-- C6 (amended): the identifier is non-empty whenever the selected
identity value contains at least one ASCII alphanumeric character, and
always on the hash-fallback path; only a truthy identity value with no
alphanumeric characters sanitizes to the empty identifier. -/
theorem C6_nonempty_amended (v : Vehicle) (h : idHasAlnum v = true) :
    jsVehicleId v ≠ "" ∧ psSlugId v ≠ "" := by
  rw [idHasAlnum] at h
  cases hr : identityRaw v with
  | some p =>
    rw [hr] at h
    exact ⟨by rw [jsVehicleId, hr]; exact sanitizeId_ne_empty h,
      by rw [psSlugId, hr]; exact sanitizeId_ne_empty h⟩
  | none =>
    constructor
    · rw [jsVehicleId, hr]
      intro he
      have hd : ('v' :: ((sha1Hex (utf8Bytes (jsSeed v))).data.take 10)) = ([] : List Char) :=
        congrArg String.data he
      exact List.cons_ne_nil _ _ hd
    · rw [psSlugId, hr]
      apply sanitizeId_ne_empty
      refine List.any_eq_true.mpr ⟨'v', ?_, by decide⟩
      show 'v' ∈ ('v' :: ((sha1Hex (utf8Bytes (psSeed v))).data.take 10))
      exact List.mem_cons_self _ _

/-- A vehicle with an ordinary alphanumeric `stockNumber`. -/
def stockVehicle : Vehicle := { stockNumber := some (JSPrim.str "B77") }

/-- C6 witness: the identifier of a vehicle with an alphanumeric
identity field is non-empty in both implementations. -/
theorem C6_witness : jsVehicleId stockVehicle ≠ "" ∧ psSlugId stockVehicle ≠ "" :=
  C6_nonempty_amended stockVehicle (by decide)

/-- C7: an absent or unparseable `price` renders the literal
`"Call for Price"`, and an absent `mileage` renders the literal
`"Mileage N/A"`; the formatting functions are total, so a per-field
parse failure only degrades that field's text. -/
theorem C7_price_mileage_fallback (price mileage : Option JSPrim)
    (hp : price = none ∨ psToInt price = none) (hm : mileage = none) :
    psPriceStr price = "Call for Price" ∧ psMilesStr mileage = "Mileage N/A" := by
  subst hm
  refine ⟨?_, rfl⟩
  rcases hp with h | h
  · subst h; rfl
  · rw [psPriceStr, h]
    split <;> rfl

/-- C7 witness: the literal string `"not-a-number"` as a price and a
missing mileage yield the documented fallbacks. -/
theorem C7_witness :
    psPriceStr (some (JSPrim.str "not-a-number")) = "Call for Price" ∧
      psMilesStr none = "Mileage N/A" :=
  C7_price_mileage_fallback (some (JSPrim.str "not-a-number")) none (Or.inr (by decide)) rfl

/-- C9: slug construction reads only `year`, `make`, `model`, `trim`
(plus the locality configuration): two vehicles agreeing on those four
fields produce identical slugs in the generator and in the client. -/
theorem C9_slug_ignores_identity (v w : Vehicle) (cfg : SiteConfig)
    (hy : v.year = w.year) (hm : v.make = w.make) (hmo : v.model = w.model)
    (ht : v.trim = w.trim) :
    psSlugTail v cfg = psSlugTail w cfg ∧ jsSlug v = jsSlug w := by
  constructor
  · rw [psSlugTail, psSlugTail, hy, hm, hmo, ht]
  · rw [jsSlug, jsSlug, hy, hm, hmo, ht]

/-- A concrete vehicle with one VIN and one set of identity fields. -/
def slugVehicleA : Vehicle :=
  { vehicleId := some (JSPrim.str "A1"), vin := some (JSPrim.str "VINONE111111111AA"),
    make := some (JSPrim.str "Ford"), model := some (JSPrim.str "F-150") }

/-- The same descriptive fields with different VIN and identity fields. -/
def slugVehicleB : Vehicle :=
  { stockNumber := some (JSPrim.str "B2"), vin := some (JSPrim.str "VINTWO222222222BB"),
    make := some (JSPrim.str "Ford"), model := some (JSPrim.str "F-150") }

/-- C9 witness: two vehicles differing only in `vin` and identity
fields share both slugs. -/
theorem C9_witness :
    psSlugTail slugVehicleA {} = psSlugTail slugVehicleB {} ∧
      jsSlug slugVehicleA = jsSlug slugVehicleB :=
  C9_slug_ignores_identity slugVehicleA slugVehicleB {} rfl rfl rfl rfl

/-- C10: an absent or non-numeric price makes every `<` comparison
false (NaN semantics), so the vehicle is classified `over30`; it then
matches the top price-range filter and none of the other buckets. -/
theorem C10_nan_price_over30 (v : Vehicle)
    (h : v.price = none ∨ jsToNumber v.price = none) :
    getPriceRange v.price = "over30" ∧ priceMatch "over30" v = true ∧
      priceMatch "under10" v = false ∧ priceMatch "10to20" v = false ∧
      priceMatch "20to30" v = false := by
  have hn : jsToNumber v.price = none := by
    rcases h with h | h
    · rw [h]; rfl
    · exact h
  have hlt : ∀ m : Int, jsLtNum v.price m = false := by
    intro m; rw [jsLtNum, hn]
  have hpr : getPriceRange v.price = "over30" := by
    rw [getPriceRange, hlt, hlt, hlt]; simp
  refine ⟨hpr, ?_, ?_, ?_, ?_⟩ <;> rw [priceMatch, hpr] <;> decide

/-- Every hex digit is an ASCII alphanumeric character. -/
theorem hexDigit_alnum (k : Nat) : (hexDigit k).isAlphanum = true := by
  rw [hexDigit]
  have h : k % 16 < 16 := Nat.mod_lt _ (by decide)
  revert h
  generalize k % 16 = m
  intro h
  interval_cases m <;> decide

/-- Every character of a rendered 32-bit word is alphanumeric. -/
theorem toHex8_alnum (n : Nat) : ∀ ch ∈ toHex8 n, ch.isAlphanum = true := by
  intro ch hch
  simp only [toHex8, List.mem_cons, List.not_mem_nil, or_false] at hch
  rcases hch with rfl | rfl | rfl | rfl | rfl | rfl | rfl | rfl <;> exact hexDigit_alnum _

/-- Every character of a rendered hash state is alphanumeric. -/
theorem sha1Render_alnum (st : Nat × Nat × Nat × Nat × Nat) :
    ∀ ch ∈ (sha1Render st).data, ch.isAlphanum = true := by
  rcases st with ⟨a, b, c, d, e⟩
  intro ch hch
  have hch2 : ch ∈ toHex8 a ++ toHex8 b ++ toHex8 c ++ toHex8 d ++ toHex8 e := hch
  simp only [List.mem_append] at hch2
  rcases hch2 with ((((h | h) | h) | h) | h) <;> exact toHex8_alnum _ ch h

/-- A rendered hash state has exactly 40 characters. -/
theorem sha1Render_length (st : Nat × Nat × Nat × Nat × Nat) :
    (sha1Render st).data.length = 40 := by
  rcases st with ⟨a, b, c, d, e⟩
  show (toHex8 a ++ toHex8 b ++ toHex8 c ++ toHex8 d ++ toHex8 e).length = 40
  simp [toHex8]

/-- Every character of a SHA-1 hex digest is alphanumeric. -/
theorem sha1Hex_alnum (msg : List Nat) : ∀ ch ∈ (sha1Hex msg).data, ch.isAlphanum = true := by
  intro ch hch
  rw [sha1Hex] at hch
  exact sha1Render_alnum _ ch hch

/-- A SHA-1 hex digest has 40 characters. -/
theorem sha1Hex_length (msg : List Nat) : (sha1Hex msg).data.length = 40 := by
  rw [sha1Hex]; exact sha1Render_length _

/-- A prefix of `x ++ c :: y` that avoids `c` is a prefix of `x`
(it cannot stretch past the separator). -/
theorem prefixSepBound {l x y : List Char} {c : Char} (hc : c ∉ l)
    (h : l <+: x ++ c :: y) : l <+: x := by
  rcases Nat.lt_or_ge x.length l.length with hlt | hge
  · exfalso
    obtain ⟨r, hr⟩ := h
    have h1 : (l ++ r)[x.length]? = l[x.length]? := by
      rw [List.getElem?_append]
      simp [hlt]
    have h2 : (x ++ c :: y)[x.length]? = some c := by
      rw [List.getElem?_append_right (le_refl x.length)]
      simp
    rw [hr, h2] at h1
    exact hc (List.getElem?_mem h1.symm)
  · exact List.prefix_of_prefix_length_le h (List.prefix_append x (c :: y)) hge

/-- Splitting an occurrence around a separator: a contiguous substring
of `x ++ c :: y` that avoids the separator character `c` lies entirely
inside `x` or entirely inside `y`. -/
theorem sepSplitCore {c : Char} :
    ∀ (x : List Char) {l y s t : List Char}, c ∉ l → s ++ l ++ t = x ++ c :: y →
      l <:+: x ∨ l <:+: y := by
  intro x
  induction x with
  | nil =>
    intro l y s t hc h
    cases s with
    | nil =>
      cases l with
      | nil => exact Or.inl List.nil_infix
      | cons a l2 =>
        simp only [List.nil_append, List.cons_append] at h
        have ha : a = c := by injection h
        exact absurd (ha ▸ List.mem_cons_self a l2) hc
    | cons b s2 =>
      simp only [List.cons_append, List.nil_append] at h
      have hy : s2 ++ l ++ t = y := by injection h
      exact Or.inr ⟨s2, t, hy⟩
  | cons a x2 ih =>
    intro l y s t hc h
    cases s with
    | cons b s2 =>
      simp only [List.cons_append] at h
      have h2 : s2 ++ l ++ t = x2 ++ c :: y := by injection h
      rcases ih hc h2 with h3 | h3
      · exact Or.inl (List.infix_cons h3)
      · exact Or.inr h3
    | nil =>
      cases l with
      | nil => exact Or.inl List.nil_infix
      | cons b l2 =>
        simp only [List.nil_append, List.cons_append] at h
        have hb : b = a := by injection h
        have h2 : l2 ++ t = x2 ++ c :: y := by injection h
        have hnc : c ∉ l2 := fun hm => hc (List.mem_cons_of_mem _ hm)
        have hx : l2 <+: x2 := prefixSepBound hnc ⟨t, h2⟩
        exact Or.inl (List.IsPrefix.isInfix (List.cons_prefix_cons.mpr ⟨hb, hx⟩))

/-- `sepSplitCore` packaged on the infix relation. -/
theorem sepSplitApp {l x y : List Char} {c : Char} (hc : c ∉ l)
    (h : l <:+: x ++ c :: y) : l <:+: x ∨ l <:+: y := by
  obtain ⟨s, t, hst⟩ := h
  exact sepSplitCore x hc hst

/-- On the hash-fallback path the generator's identifier is exactly 11
characters (`v` plus ten hex digits, all surviving sanitization). -/
theorem psSlugId_fallback_length (v : Vehicle) (hr : identityRaw v = none) :
    (psSlugId v).data.length = 11 := by
  simp only [psSlugId, hr]
  rw [sanitizeId]
  have hall : ∀ ch ∈ ("v" ++ String.mk ((sha1Hex (utf8Bytes (psSeed v))).data.take 10)).data,
      Char.isAlphanum ch = true := by
    intro ch hch
    rw [String.data_append] at hch
    rcases List.mem_append.mp hch with h | h
    · have hv : ch = 'v' := by simpa using h
      subst hv; decide
    · exact sha1Hex_alnum _ ch (List.mem_of_mem_take h)
  rw [List.filter_eq_self.mpr hall]
  rw [String.data_append, List.length_append]
  have h1 : ("v".data).length = 1 := rfl
  have h2 : ((String.mk ((sha1Hex (utf8Bytes (psSeed v))).data.take 10)).data).length =
      ((sha1Hex (utf8Bytes (psSeed v))).data.take 10).length := rfl
  rw [h1, h2, List.length_take, sha1Hex_length]
  decide

/-- C3 (amended): the path machinery never introduces the VIN on its
own.  For a vehicle whose `vin` is set, slash-free and of realistic
length (at least 12 characters, VINs are 17), if the VIN does not
already occur inside the computed slug, the trimmed site URL, or — when
an identity field is selected — the computed identifier, then neither
the relative page path nor the absolute page/sitemap URL contains the
VIN; on the hash-fallback path this holds without any assumption on the
identifier, whose 11 hex-derived characters are too short to contain
the VIN even though the VIN seeds the hash. -/
theorem C3_vin_not_in_path (v : Vehicle) (cfg : SiteConfig) (vin : String)
    (_hvin : v.vin = some (JSPrim.str vin))
    (hlen : 12 ≤ vin.data.length)
    (hslash : ('/' : Char) ∉ vin.data)
    (hsite : ¬ vin.data <:+: (trimEndSlashes cfg.siteUrl).data)
    (htail : ¬ vin.data <:+: (psSlugTail v cfg).data)
    (hid : identityRaw v = none ∨ ¬ vin.data <:+: (psSlugId v).data) :
    ¬ vin.data <:+: (relDir v cfg).data ∧ ¬ vin.data <:+: (pageUrl v cfg).data := by
  have hidn : ¬ vin.data <:+: (psSlugId v).data := by
    rcases hid with h | h
    · intro hinf
      have hle := hinf.length_le
      rw [psSlugId_fallback_length v h] at hle
      omega
    · exact h
  have hshape1 : (relDir v cfg).data =
      ['v', 'd', 'p'] ++ '/' :: ((psSlugId v).data ++ '/' :: (psSlugTail v cfg).data) := by
    show (("vdp/" ++ psSlugId v ++ "/") ++ psSlugTail v cfg).data = _
    rw [String.data_append, String.data_append, String.data_append]
    rw [List.append_assoc, List.append_assoc]
    rfl
  have hrel : ¬ vin.data <:+: (relDir v cfg).data := by
    intro hinf
    rw [hshape1] at hinf
    rcases sepSplitApp hslash hinf with h | h
    · have hle := h.length_le
      have h3 : (['v', 'd', 'p'] : List Char).length = 3 := rfl
      rw [h3] at hle
      omega
    · rcases sepSplitApp hslash h with h2 | h2
      · exact hidn h2
      · exact htail h2
  refine ⟨hrel, ?_⟩
  intro hinf
  have hshape2 : (pageUrl v cfg).data =
      (trimEndSlashes cfg.siteUrl).data ++ '/' :: ((relDir v cfg).data ++ '/' :: []) := by
    show ((trimEndSlashes cfg.siteUrl ++ "/" ++ relDir v cfg) ++ "/").data = _
    rw [String.data_append, String.data_append, String.data_append]
    rw [List.append_assoc, List.append_assoc]
    rfl
  rw [hshape2] at hinf
  rcases sepSplitApp hslash hinf with h | h
  · exact hsite h
  · rcases sepSplitApp hslash h with h2 | h2
    · exact hrel h2
    · have hle := h2.length_le
      have h0 : (([] : List Char)).length = 0 := rfl
      rw [h0] at hle
      omega

/-- A vehicle whose `vehicleId` was filled in with the VIN itself. -/
def vinLeakVehicle : Vehicle :=
  { vehicleId := some (JSPrim.str "1FTEW1EP0LKE12345"),
    vin := some (JSPrim.str "1FTEW1EP0LKE12345") }

/-- C3 counterexample: nothing stops an identity field from equalling
the VIN, in which case the generated page path and the sitemap location
do contain the VIN as a substring. -/
theorem C3_counterexample :
    "1FTEW1EP0LKE12345".data <:+: (relDir vinLeakVehicle {}).data ∧
      "1FTEW1EP0LKE12345".data <:+: (pageUrl vinLeakVehicle {}).data := by decide

/-- A vehicle with an ordinary stock number and a 17-character VIN. -/
def vinSafeVehicle : Vehicle :=
  { vehicleId := some (JSPrim.str "A1234"),
    vin := some (JSPrim.str "1FTEW1EP0LKE12345") }

/-- C3 witness: with a VIN-free identifier and slug, the path and the
page URL are VIN-free. -/
theorem C3_witness :
    ¬ "1FTEW1EP0LKE12345".data <:+: (relDir vinSafeVehicle {}).data ∧
      ¬ "1FTEW1EP0LKE12345".data <:+: (pageUrl vinSafeVehicle {}).data :=
  C3_vin_not_in_path vinSafeVehicle {} "1FTEW1EP0LKE12345" rfl (by decide) (by decide)
    (by decide) (by decide) (Or.inr (by decide))

/-- Defaulting an absent status to "available" does not change the date
sort key. -/
theorem dateVal_dflt (v : Vehicle) :
    dateVal (dfltStatus v).dateAdded = dateVal v.dateAdded := by
  rw [dfltStatus]; split <;> rfl

/-- Defaulting an absent status to "available" does not change
visibility (an absent status is already visible). -/
theorem statusVisible_dflt (v : Vehicle) :
    statusVisible (dfltStatus v) = statusVisible v := by
  rw [dfltStatus]
  split
  · rename_i h
    have h1 : statusVisible { v with status := some (JSPrim.str "available") } = true := rfl
    have h2 : statusVisible v = true := by rw [statusVisible, h]; rfl
    rw [h1, h2]
  · rfl

/-- The complete filter predicate of `filterVehicles` is invariant
under status defaulting. -/
theorem filterPred_dflt (q t p : String) (v : Vehicle) :
    (searchMatch q (dfltStatus v) && typeMatch t (dfltStatus v) &&
      priceMatch p (dfltStatus v) && statusVisible (dfltStatus v)) =
    (searchMatch q v && typeMatch t v && priceMatch p v && statusVisible v) := by
  have hs : searchMatch q (dfltStatus v) = searchMatch q v := by
    rw [dfltStatus]; split <;> rfl
  have ht : typeMatch t (dfltStatus v) = typeMatch t v := by
    rw [dfltStatus]; split <;> rfl
  have hp : priceMatch p (dfltStatus v) = priceMatch p v := by
    rw [dfltStatus]; split <;> rfl
  rw [hs, ht, hp, statusVisible_dflt]

/-- Insertion commutes with status defaulting (the sort key is
preserved). -/
theorem insertByDate_map_dflt (v : Vehicle) (l : List Vehicle) :
    insertByDate (dfltStatus v) (l.map dfltStatus) = (insertByDate v l).map dfltStatus := by
  induction l with
  | nil => rfl
  | cons w t ih =>
    rw [List.map_cons, insertByDate, insertByDate, dateVal_dflt w, dateVal_dflt v]
    by_cases hc : dateVal w.dateAdded < dateVal v.dateAdded
    · rw [if_pos hc, if_pos hc, List.map_cons, List.map_cons]
    · rw [if_neg hc, if_neg hc, List.map_cons, ih]

/-- The insertion-sort fold commutes with status defaulting. -/
theorem foldl_insert_map_dflt (l : List Vehicle) :
    ∀ acc, (l.map dfltStatus).foldl (fun a v => insertByDate v a) (acc.map dfltStatus) =
      (l.foldl (fun a v => insertByDate v a) acc).map dfltStatus := by
  induction l with
  | nil => intro acc; rfl
  | cons w t ih =>
    intro acc
    rw [List.map_cons, List.foldl_cons, List.foldl_cons, insertByDate_map_dflt w acc]
    exact ih (insertByDate w acc)

/-- The date sort commutes with status defaulting. -/
theorem sortByDate_map_dflt (l : List Vehicle) :
    sortByDateDesc (l.map dfltStatus) = (sortByDateDesc l).map dfltStatus := by
  rw [sortByDateDesc, sortByDateDesc]
  have h := foldl_insert_map_dflt l []
  simpa using h

/-- `getMostRecent` commutes with status defaulting. -/
theorem getMostRecent_map_dflt (limit : Option Nat) (l : List Vehicle) :
    getMostRecent limit (l.map dfltStatus) = (getMostRecent limit l).map dfltStatus := by
  have hf : (l.map dfltStatus).filter statusVisible = (l.filter statusVisible).map dfltStatus := by
    rw [List.filter_map]
    congr 1
    apply List.filter_congr
    intro w hw
    simp only [Function.comp]
    exact statusVisible_dflt w
  cases limit with
  | none =>
    show sortByDateDesc ((l.map dfltStatus).filter statusVisible) =
      (sortByDateDesc (l.filter statusVisible)).map dfltStatus
    rw [hf, sortByDate_map_dflt]
  | some n =>
    show (sortByDateDesc ((l.map dfltStatus).filter statusVisible)).take n =
      ((sortByDateDesc (l.filter statusVisible)).take n).map dfltStatus
    rw [hf, sortByDate_map_dflt, List.map_take]

/-- Membership in an insertion comes from the element or the list. -/
theorem mem_insertByDate {x v : Vehicle} :
    ∀ {l : List Vehicle}, x ∈ insertByDate v l → x = v ∨ x ∈ l := by
  intro l
  induction l with
  | nil =>
    intro h
    rw [insertByDate] at h
    exact Or.inl (List.mem_singleton.mp h)
  | cons w t ih =>
    intro h
    rw [insertByDate] at h
    by_cases hc : dateVal w.dateAdded < dateVal v.dateAdded
    · rw [if_pos hc] at h
      rcases List.mem_cons.mp h with h1 | h1
      · exact Or.inl h1
      · exact Or.inr h1
    · rw [if_neg hc] at h
      rcases List.mem_cons.mp h with h1 | h1
      · exact Or.inr (List.mem_cons.mpr (Or.inl h1))
      · rcases ih h1 with h2 | h2
        · exact Or.inl h2
        · exact Or.inr (List.mem_cons.mpr (Or.inr h2))

/-- Membership in the sort fold comes from the accumulator or the
input list. -/
theorem mem_sortFold {x : Vehicle} : ∀ (l acc : List Vehicle),
    x ∈ l.foldl (fun a v => insertByDate v a) acc → x ∈ acc ∨ x ∈ l := by
  intro l
  induction l with
  | nil => intro acc h; exact Or.inl h
  | cons w t ih =>
    intro acc h
    rw [List.foldl_cons] at h
    rcases ih (insertByDate w acc) h with h1 | h1
    · rcases mem_insertByDate h1 with h2 | h2
      · exact Or.inr (List.mem_cons.mpr (Or.inl h2))
      · exact Or.inl h2
    · exact Or.inr (List.mem_cons.mpr (Or.inr h1))

/-- A vehicle with status "sold" fails the availability test. -/
theorem sold_not_visible (v : Vehicle) (h : v.status = some (JSPrim.str "sold")) :
    statusVisible v = false := by
  rw [statusVisible, h]; rfl

/-- C8: a sold vehicle never appears in the default most-recent view
nor in any filtered view, and defaulting every absent status to
"available" changes neither view beyond the defaulting itself — an
absent-status vehicle appears exactly as if it were available. -/
theorem C8_availability (l : List Vehicle) (limit : Option Nat) (q t p : String) (v : Vehicle) :
    (v.status = some (JSPrim.str "sold") →
      v ∉ getMostRecent limit l ∧ v ∉ filterVehicles l q t p) ∧
    getMostRecent limit (l.map dfltStatus) = (getMostRecent limit l).map dfltStatus ∧
    filterVehicles (l.map dfltStatus) q t p = (filterVehicles l q t p).map dfltStatus := by
  refine ⟨?_, getMostRecent_map_dflt limit l, ?_⟩
  · intro hs
    have hv : statusVisible v = false := sold_not_visible v hs
    constructor
    · intro hm
      have hmem : v ∈ sortByDateDesc (l.filter statusVisible) := by
        cases limit with
        | none => exact hm
        | some n => exact List.mem_of_mem_take hm
      rw [sortByDateDesc] at hmem
      rcases mem_sortFold _ _ hmem with h1 | h1
      · simp at h1
      · have hp2 := List.of_mem_filter h1
        rw [hv] at hp2
        exact Bool.false_ne_true hp2
    · intro hm
      have hp2 := List.of_mem_filter hm
      rw [hv] at hp2
      simp at hp2
  · rw [filterVehicles, filterVehicles, List.filter_map]
    congr 1
    apply List.filter_congr
    intro w hw
    simp only [Function.comp]
    exact filterPred_dflt q t p w

/-- A sold vehicle. -/
def soldVehicle : Vehicle :=
  { status := some (JSPrim.str "sold"), make := some (JSPrim.str "Ford") }

/-- A vehicle with no status field. -/
def noStatusVehicle : Vehicle := { make := some (JSPrim.str "Chevy") }

/-- C8 witness: on a two-vehicle inventory, the sold vehicle is in
neither view and status defaulting commutes with both views. -/
theorem C8_witness :
    (soldVehicle ∉ getMostRecent none [soldVehicle, noStatusVehicle] ∧
      soldVehicle ∉ filterVehicles [soldVehicle, noStatusVehicle] "" "all" "all") ∧
    getMostRecent none ([soldVehicle, noStatusVehicle].map dfltStatus) =
      (getMostRecent none [soldVehicle, noStatusVehicle]).map dfltStatus ∧
    filterVehicles ([soldVehicle, noStatusVehicle].map dfltStatus) "" "all" "all" =
      (filterVehicles [soldVehicle, noStatusVehicle] "" "all" "all").map dfltStatus := by
  have h := C8_availability [soldVehicle, noStatusVehicle] none "" "all" "all" soldVehicle
  exact ⟨h.1 rfl, h.2.1, h.2.2⟩

/-- A vehicle with the non-numeric price string of the claim. -/
def nanPriceVehicle : Vehicle := { price := some (JSPrim.str "not-a-number") }

/-- C10 witness: the `"not-a-number"` price is classified `over30`,
matches the top bucket filter, and no other bucket. -/
theorem C10_witness :
    getPriceRange nanPriceVehicle.price = "over30" ∧
      priceMatch "over30" nanPriceVehicle = true ∧
      priceMatch "under10" nanPriceVehicle = false ∧
      priceMatch "10to20" nanPriceVehicle = false ∧
      priceMatch "20to30" nanPriceVehicle = false :=
  C10_nan_price_over30 nanPriceVehicle (Or.inr (by decide))
